import Mathlib

/-!
Verification of the transmit-session / cyclic-control state machine of the
PortaPack signal-generator app (src/firmware/application/apps/ui_sig_gen_app.cpp
and .hpp).

The controller state (`St`) collects the fields of `SigGenAppView` that the
state machine reads or writes, together with the externally observable
effects the spec talks about: the hardware virtual timer (`timer_armed`,
`timer_duration`), the transmitter pipeline enable bit, the error modal count,
the progress bar value, the play/stop button bitmap, and the persisted config
record (`cfg`, the content of /SigGen/config.txt).  `sessionsCreated` is a
ghost counter incremented each time a `ReplayThread` is constructed; it tracks
"how many sessions were created" and is written nowhere else.

The environment (`Env`) holds the filesystem oracle: whether `FileReader::open`
succeeds on a given path, and whether the config file opens for writing.
All UI-only effects with no bearing on the claims (text labels, frequency
field, waterfall, serial debug messages) are elided.
-/

namespace SigGen

/-- Filesystem / platform oracle: `openOk p` is the outcome of opening the
data file at path `p` for reading; `cfgOpenOk` is the outcome of opening the
config file for writing (`File::open(config_file_name, false, true)`). -/
structure Env where
  openOk : String → Bool
  cfgOpenOk : Bool

/-- Controller state: the `SigGenAppView` fields driven by the state machine,
plus observable external effects (timer, transmitter, modals, persisted
record) and the ghost counter `sessionsCreated`. -/
structure St where
  file_path : String
  replay_thread : Bool
  ready_signal : Bool
  is_cycle_timer_enabled : Bool
  is_transmitting : Bool
  timer_armed : Bool
  timer_duration : Int
  check_cycle_enable : Bool
  field_cycle_tx : Int
  field_cycle_pause : Int
  button_shows_stop : Bool
  progress_value : Nat
  transmitter_enabled : Bool
  fileErrorCount : Nat
  cfg : Option String
  sessionsCreated : Nat
deriving DecidableEq, Repr

/-- `SigGenAppView::is_active`: a session exists iff the `replay_thread`
unique_ptr is non-null. -/
def is_active (s : St) : Bool :=
  s.replay_thread

/-- `SigGenAppView::set_ready`: sets the ready (backpressure) signal. -/
def set_ready (s : St) : St :=
  { s with ready_signal := true }

/-- `SigGenAppView::on_tx_progress`: progress bar update. -/
def on_tx_progress (p : Nat) (s : St) : St :=
  { s with progress_value := p }

/-- `SigGenAppView::file_error`: displays the "File read error." modal.
Modelled as incrementing the count of file-error modals shown. -/
def file_error (s : St) : St :=
  { s with fileErrorCount := s.fileErrorCount + 1 }

/-- `std::to_string` applied to a `bool` (promoted to int): "1" or "0". -/
def bts (b : Bool) : String :=
  if b then "1" else "0"

/-- Decimal representation of a natural number, as `std::to_string` produces. -/
def natRepr (n : Nat) : String :=
  String.mk (Nat.toDigits 10 n)

/-- `std::to_string` on a (signed) integer value. -/
def intRepr (i : Int) : String :=
  if i < 0 then "-" ++ natRepr i.natAbs else natRepr i.toNat

/-- The config record content built by `SigGenAppView::save_last_config`:
file path, cycle-enable flag, cycle tx seconds, cycle pause seconds, each
terminated by CRLF, in that order. -/
def configContent (s : St) : String :=
  s.file_path ++ "\r\n" ++ bts s.check_cycle_enable ++ "\r\n" ++
    intRepr s.field_cycle_tx ++ "\r\n" ++ intRepr s.field_cycle_pause ++ "\r\n"

/-- `SigGenAppView::save_last_config`: `delete_file(config_file_name)` first,
then open the config file for writing; on open error return (the old record
is already gone); otherwise write the four-field record and close. -/
def save_last_config (env : Env) (s : St) : St :=
  let s1 : St := { s with cfg := none }
  if env.cfgOpenOk then { s1 with cfg := some (configContent s1) } else s1

/-- `SigGenAppView::start`: open a `FileReader` on `file_path`; if the open
fails, show the file-error modal and return (no session, transmitter not
enabled); otherwise construct the `ReplayThread` (one new session) and enable
the transmitter model. -/
def start (env : Env) (s : St) : St :=
  if env.openOk s.file_path then
    { s with
      replay_thread := true
      sessionsCreated := s.sessionsCreated + 1
      transmitter_enabled := true }
  else
    file_error s

/-- Shared head of `SigGenAppView::stop`: `transmitter_model.disable()` and
`if (is_active()) replay_thread.reset()`. -/
def stopCommon (s : St) : St :=
  let s1 : St := { s with transmitter_enabled := false }
  if is_active s1 then { s1 with replay_thread := false } else s1

/-- `SigGenAppView::stop(false)`: the `do_loop` branches are both skipped, so
the call is the shared head followed by `ready_signal = false`.  Split out so
that `toggle` and `cyclic_tx_ctr`, which call `stop(false)`, do not form a
definition cycle with `stop`; the lemma `stop_false_eq_stop0` below proves
this split faithful. -/
def stop0 (s : St) : St :=
  { stopCommon s with ready_signal := false }

/-- `SigGenAppView::stop_cyclic`: `chVTReset` runs only under the
`is_cycle_timer_enabled` guard, while the flag assignment that follows it is
(despite the source indentation) unconditional, the `if` having no braces. -/
def stop_cyclic (s : St) : St :=
  let s1 : St := if s.is_cycle_timer_enabled then { s with timer_armed := false } else s
  { s1 with is_cycle_timer_enabled := false }

/-- `SigGenAppView::cyclic_tx_ctr`: on a start flip, `chVTSet` the timer for
`field_cycle_tx` seconds and `start()`; on a pause flip, `chVTSet` it for
`field_cycle_pause` seconds and `stop(false)`; in both branches
`is_cycle_timer_enabled = TRUE` afterwards.  No current-state check guards
either branch. -/
def cyclic_tx_ctr (env : Env) (ctr : Bool) (s : St) : St :=
  if ctr then
    let s1 : St := { s with timer_armed := true, timer_duration := s.field_cycle_tx }
    let s2 : St := start env s1
    { s2 with is_cycle_timer_enabled := true }
  else
    let s1 : St := { s with timer_armed := true, timer_duration := s.field_cycle_pause }
    let s2 : St := stop0 s1
    { s2 with is_cycle_timer_enabled := true }

/-- `SigGenAppView::toggle`: when `is_transmitting`, stop the cyclic timer,
`stop(false)`, clear the flag and show the play bitmap.  Otherwise persist
the config, enter cyclic mode iff the cycle checkbox is set and the pause
field is non-zero (else plain `start()`), and afterwards set the flag and the
stop bitmap iff a session now exists. -/
def toggle (env : Env) (s : St) : St :=
  if s.is_transmitting then
    let s1 : St := stop_cyclic s
    let s2 : St := stop0 s1
    { s2 with is_transmitting := false, button_shows_stop := false }
  else
    let s1 : St := save_last_config env s
    let s2 : St :=
      if s1.check_cycle_enable && (s1.field_cycle_pause != 0) then
        cyclic_tx_ctr env true s1
      else
        start env s1
    if is_active s2 then { s2 with is_transmitting := true, button_shows_stop := true } else s2

/-- `SigGenAppView::stop(do_loop)`: disable the transmitter and drop the
session; if `do_loop` and the cycle checkbox is clear, re-trigger `toggle()`;
if `do_loop` and the checkbox is set, `start()` again only when the pause
field is zero (continuous cyclic); finally always clear `ready_signal`. -/
def stop (env : Env) (do_loop : Bool) (s : St) : St :=
  let s1 : St := stopCommon s
  let s2 : St :=
    if do_loop && !s1.check_cycle_enable then
      toggle env s1
    else if do_loop && s1.check_cycle_enable then
      (if s1.field_cycle_pause == 0 then start env s1 else s1)
    else
      s1
  { s2 with ready_signal := false }

/-- Modelled from the spec: the `ReplayThread` outcome constants live in
firmware/application/replay_thread.hpp, which is not under src/; the spec
(§3 ReplayOutcome) only fixes that `EndOfFile` and `ReadError` are the two
distinct outcomes, so only distinctness of these codes matters. -/
def END_OF_FILE : Nat := 0

/-- Modelled from the spec: see `END_OF_FILE`. -/
def READ_ERROR : Nat := 1

/-- `SigGenAppView::handle_replay_thread_done`: `END_OF_FILE` means
`stop(true)`; `READ_ERROR` means `stop(false)`, then `stop_cyclic()`, then
the file-error modal; either way the progress bar is reset to zero. -/
def handle_replay_thread_done (env : Env) (return_code : Nat) (s : St) : St :=
  let s1 : St :=
    if return_code = END_OF_FILE then
      stop env true s
    else if return_code = READ_ERROR then
      file_error (stop_cyclic (stop env false s))
    else
      s
  { s1 with progress_value := 0 }

/-- `SigGenAppView::cycle_cb` (timer ISR): posts a `CyclicTXCtrMessage` whose
flag is FALSE when a session is active and TRUE otherwise; it mutates no
controller state. -/
def cycle_cb (s : St) : Bool :=
  !(is_active s)

/-- The hardware virtual timer firing: the one-shot timer becomes inactive and
the ISR callback `cycle_cb` posts the phase-flip message computed from the
state at fire time. -/
def timer_fire (s : St) : St × Bool :=
  ({ s with timer_armed := false }, cycle_cb s)

/-- `SigGenAppView::~SigGenAppView`: `stop_cyclic()`, then disable the
transmitter (baseband shutdown elided). -/
def destructor (s : St) : St :=
  { stop_cyclic s with transmitter_enabled := false }

/-- `SigGenAppView::on_file_changed`: record the new path, then open the data
file to read its size; on open failure show the file-error modal and return.
The metadata / UI-label work on the success path touches no state-machine
field and is elided. -/
def on_file_changed (env : Env) (p : String) (s : St) : St :=
  let s1 : St := { s with file_path := p }
  if env.openOk p then s1 else file_error s1

/-- The state built by the `SigGenAppView` constructor: no session, nothing
armed, and the constructor's explicit widget defaults
(`check_cycle_enable.set_value(TRUE)`, `field_cycle_tx.set_value(5)`,
`field_cycle_pause.set_value(0)`). -/
def initState : St where
  file_path := ""
  replay_thread := false
  ready_signal := false
  is_cycle_timer_enabled := false
  is_transmitting := false
  timer_armed := false
  timer_duration := 0
  check_cycle_enable := true
  field_cycle_tx := 5
  field_cycle_pause := 0
  button_shows_stop := false
  progress_value := 0
  transmitter_enabled := false
  fileErrorCount := 0
  cfg := none
  sessionsCreated := 0

/-- Environment in which every file open succeeds. -/
def envT : Env where
  openOk := fun _ => true
  cfgOpenOk := true

/-- Environment in which opening the data file fails (config writes succeed). -/
def envF : Env where
  openOk := fun _ => false
  cfgOpenOk := true

/-- C isspace characters, as `std::stoi` skips them at the front. -/
def isSpaceC (c : Char) : Bool :=
  c = ' ' || c = '\t' || c = '\n' || c = '\x0b' || c = '\x0c' || c = '\r'

/-- Decimal digit test. -/
def isDigitC (c : Char) : Bool :=
  '0' ≤ c && c ≤ '9'

/-- Value of a digit string (most significant first). -/
def digitsVal (cs : List Char) : Nat :=
  cs.foldl (fun a c => a * 10 + (c.toNat - 48)) 0

/-- `std::stoi`: skip leading whitespace, take an optional sign and then a
non-empty run of digits (trailing non-digits are ignored); with no digits the
conversion fails (`std::invalid_argument`), modelled as `none`.  Out-of-range
values (`std::out_of_range`) do not arise at the magnitudes used here and are
not modelled. -/
def stoiChars (cs : List Char) : Option Int :=
  match cs.dropWhile isSpaceC with
  | '-' :: rest =>
    let ds := rest.takeWhile isDigitC
    if ds.isEmpty then none else some (-(digitsVal ds : Int))
  | '+' :: rest =>
    let ds := rest.takeWhile isDigitC
    if ds.isEmpty then none else some ((digitsVal ds : Int))
  | other =>
    let ds := other.takeWhile isDigitC
    if ds.isEmpty then none else some ((digitsVal ds : Int))

/-- `std::stoi` on a string; `none` models the thrown `std::invalid_argument`. -/
def stoi (str : String) : Option Int :=
  stoiChars str.data

/-- Drop a single trailing carriage return from a line. -/
def stripCR (l : List Char) : List Char :=
  if l.getLast? = some '\r' then l.dropLast else l

/-- Split a character stream at every newline. -/
def splitNl : List Char → List (List Char)
  | [] => [[]]
  | c :: rest =>
    if c = '\n' then [] :: splitNl rest
    else
      match splitNl rest with
      | [] => [[c]]
      | l :: ls => (c :: l) :: ls

/-- Modelled from the spec: `FileLineReader` (firmware/application/
file_reader.hpp, not under src/) iterates the line-oriented record; per §6
the record is plain text whose logical lines are the fields ("line 1 = file
path"), so the reader yields the text between line breaks, here by splitting
at newlines and dropping the carriage return of a CRLF pair. -/
def splitLines (content : String) : List String :=
  (splitNl content.data).map (fun l => String.mk (stripCR l))

/-- The skip test of `load_last_config`: `line.length() == 0 || line[0] ==
'#' || line[0] == '\r' || line[0] == '\n'`. -/
def skipLine (l : String) : Bool :=
  match l.data with
  | [] => true
  | c :: _ => c = '#' || c = '\r' || c = '\n'

/-- Modelled from the spec: `NumberField::set_value` (ui_widget, not under
src/) clips the assigned value to the field's range (§3 CycleConfig bounds
the on/off duration fields). -/
def clampInt (lo hi v : Int) : Int :=
  if v < lo then lo else if hi < v then hi else v

/-- Uncaught-exception outcome of `load_last_config` (see `stoi`). -/
inductive LoadErr where
  | invalidNumber
deriving DecidableEq, Repr

/-- One significant line of the config record, dispatched on the running
index exactly as the `switch(i++)` of `load_last_config` does: index 0 is the
IQ file path (via `on_file_changed`), 1 the cycle-enable flag
(`static_cast<bool>(std::stoi(...))`), 2 the cycle tx seconds, 3 the cycle
pause seconds; later significant lines match no case. -/
def loadLine (env : Env) (i : Nat) (l : String) (s : St) : Except LoadErr St :=
  match i with
  | 0 => .ok (on_file_changed env l s)
  | 1 =>
    match stoi l with
    | none => .error .invalidNumber
    | some v => .ok { s with check_cycle_enable := v != 0 }
  | 2 =>
    match stoi l with
    | none => .error .invalidNumber
    | some v => .ok { s with field_cycle_tx := clampInt 1 30 v }
  | 3 =>
    match stoi l with
    | none => .error .invalidNumber
    | some v => .ok { s with field_cycle_pause := clampInt 0 30 v }
  | _ => .ok s

/-- The reader loop of `load_last_config`: blank and comment lines are
skipped without advancing the index; each significant line is interpreted by
`loadLine` and advances it; a failed numeric conversion aborts the loop (the
exception propagates). -/
def loadLines (env : Env) : List String → Nat → St → Except LoadErr St
  | [], _, s => .ok s
  | l :: rest, i, s =>
    if skipLine l then loadLines env rest i s
    else
      match loadLine env i l s with
      | .error e => .error e
      | .ok s1 => loadLines env rest (i + 1) s1

/-- `SigGenAppView::load_last_config`: when the config file does not open the
function silently returns; otherwise it iterates the record's lines as
`loadLines` describes. -/
def load_last_config (env : Env) (s : St) : Except LoadErr St :=
  match s.cfg with
  | none => .ok s
  | some content => loadLines env (splitLines content) 0 s

/-- Sanity: `stop(false)` coincides with its split-out form `stop0`. -/
theorem stop_false_eq_stop0 (env : Env) (s : St) : stop env false s = stop0 s := rfl

attribute [ext] St

/-- Normal form of the shared head of `stop`: the conditional reset of the
session slot amounts to clearing it. -/
theorem stopCommon_eq (s : St) :
    stopCommon s = { s with transmitter_enabled := false, replay_thread := false } := by
  cases hr : s.replay_thread <;> ext <;> simp [stopCommon, is_active, hr]

/-- Normal form of `stop(false)`. -/
theorem stop0_eq (s : St) :
    stop0 s =
      { s with transmitter_enabled := false, replay_thread := false, ready_signal := false } := by
  unfold stop0
  rw [stopCommon_eq]

/-- Normal form of `stop_cyclic`: the hardware timer is reset only under the
flag, while the flag itself is always cleared. -/
theorem stop_cyclic_eq (s : St) :
    stop_cyclic s =
      { s with
        timer_armed := if s.is_cycle_timer_enabled then false else s.timer_armed
        is_cycle_timer_enabled := false } := by
  cases hf : s.is_cycle_timer_enabled <;> ext <;> simp [stop_cyclic, hf]

/-- Normal form of `save_last_config`: only the persisted record changes. -/
theorem save_eq (env : Env) (s : St) :
    save_last_config env s =
      { s with cfg := if env.cfgOpenOk then some (configContent s) else none } := by
  unfold save_last_config
  split <;> next h => simp [h] <;> rfl

/-- C9: every call to `stop()` leaves the ready signal false on return,
regardless of the `do_loop` flag — including the continuous-cyclic path where
`stop()` itself started a replacement session, whose ready signal is
therefore cleared immediately after creation. -/
theorem stop_clears_ready (env : Env) (do_loop : Bool) (s : St) :
    (stop env do_loop s).ready_signal = false := rfl

/-- C7: disarming the cycle timer is idempotent: `stop_cyclic` on a state
whose timer flag is clear (never armed) is a no-op, and a second disarm right
after a first is a no-op; this is what makes the call safe from both the
controller and the destructor. -/
theorem stop_cyclic_idempotent (s : St) :
    (s.is_cycle_timer_enabled = false → stop_cyclic s = s) ∧
      stop_cyclic (stop_cyclic s) = stop_cyclic s := by
  constructor
  · intro h
    ext <;> simp [stop_cyclic, h]
  · ext <;> simp [stop_cyclic]

/-- Witness for `stop_cyclic_idempotent` at the constructor state. -/
theorem stop_cyclic_idempotent_witness :
    initState.is_cycle_timer_enabled = false ∧ stop_cyclic initState = initState :=
  ⟨rfl, (stop_cyclic_idempotent initState).1 rfl⟩

/-- C10: `save_last_config` deletes the persisted record before opening the
config file for writing; when that open fails it returns without writing, so
the previously persisted config (here `c`) no longer exists afterwards. -/
theorem save_open_fail_loses_config (env : Env) (s : St) (c : String)
    (_hc : s.cfg = some c) (h : env.cfgOpenOk = false) :
    (save_last_config env s).cfg = none := by
  unfold save_last_config
  rw [h]
  simp

/-- Witness for `save_open_fail_loses_config`: a concrete failed save erases
the old record. -/
theorem save_open_fail_loses_config_witness :
    (save_last_config { openOk := fun _ => true, cfgOpenOk := false }
      { initState with cfg := some "old" }).cfg = none :=
  save_open_fail_loses_config _ _ "old" rfl rfl

/-- C1: evaluation of the code at the failing scenario.  From the constructor
state with a loaded file and a ten-second pause, the user toggles on (cyclic
mode), the on-phase flip puts the system in the pause phase, the timer fires
(posting a start flip, since no session is active), the user then explicitly
stops (`toggle`), and only afterwards the queued flip is delivered.
`cyclic_tx_ctr` performs no current-state check: the delivered flip re-arms
the timer and creates a new session, so it is not a no-op as the claim
states. -/
theorem flip_after_stop_restarts :
    let s0 : St := { initState with file_path := "/x/y.c8", field_cycle_pause := 10 }
    let sT : St := toggle envT s0
    let sP : St := cyclic_tx_ctr envT false sT
    let fired := timer_fire sP
    let sStop : St := toggle envT fired.1
    let sAfter : St := cyclic_tx_ctr envT fired.2 sStop
    fired.2 = true ∧ sStop.replay_thread = false ∧ sStop.timer_armed = false ∧
      sStop.is_transmitting = false ∧ sStop.is_cycle_timer_enabled = false ∧
      sAfter.replay_thread = true ∧ sAfter.timer_armed = true ∧
      sAfter.is_cycle_timer_enabled = true := by
  decide

/-- C2: evaluation of the code at the failing scenario.  With cyclic mode
selected (pause = 10) and a source file that fails to open, `toggle` goes
through `cyclic_tx_ctr(TRUE)`, which arms the cycle timer *before* calling
`start()`; the open failure reports a file error and creates no session, but
the timer stays armed and `is_cycle_timer_enabled` is set, so cyclic mode is
entered despite the failure — contradicting the claim. -/
theorem open_fail_cyclic_enters_cyclic :
    let s0 : St := { initState with file_path := "/missing.c8", field_cycle_pause := 10 }
    let t : St := toggle envF s0
    t.fileErrorCount = 1 ∧ t.replay_thread = false ∧ t.is_transmitting = false ∧
      t.sessionsCreated = 0 ∧ t.timer_armed = true ∧ t.is_cycle_timer_enabled = true := by
  decide

/-- C3 counterexample: a `READ_ERROR` outcome delivered while cyclic
transmission is active tears down the session and disarms the timer, but the
transmitting indicator (`is_transmitting`, and with it the stop bitmap) is
left set, so the system is not returned to the Idle (transmitting-state
cleared) configuration the claim describes. -/
theorem read_error_keeps_transmitting_flag :
    let s0 : St := { initState with file_path := "/x/y.c8", field_cycle_pause := 10 }
    let sT : St := toggle envT s0
    let t : St := handle_replay_thread_done envT READ_ERROR sT
    sT.is_transmitting = true ∧ t.replay_thread = false ∧ t.timer_armed = false ∧
      t.is_transmitting = true ∧ t.button_shows_stop = true := by
  decide

/-- C3 amended: for every prior state (hence every prior phase) whose armed
timer is reflected in the timer flag, handling a `READ_ERROR` outcome tears
down the session, disarms the cycle timer, reports the error, resets the
progress indicator to zero, and disables the transmitter and ready signal —
but the transmitting indicator is left unchanged rather than cleared. -/
theorem handle_read_error_amended (env : Env) (s : St)
    (h : s.timer_armed = true → s.is_cycle_timer_enabled = true) :
    (handle_replay_thread_done env READ_ERROR s).replay_thread = false ∧
      (handle_replay_thread_done env READ_ERROR s).timer_armed = false ∧
      (handle_replay_thread_done env READ_ERROR s).is_cycle_timer_enabled = false ∧
      (handle_replay_thread_done env READ_ERROR s).fileErrorCount = s.fileErrorCount + 1 ∧
      (handle_replay_thread_done env READ_ERROR s).progress_value = 0 ∧
      (handle_replay_thread_done env READ_ERROR s).transmitter_enabled = false ∧
      (handle_replay_thread_done env READ_ERROR s).ready_signal = false ∧
      (handle_replay_thread_done env READ_ERROR s).is_transmitting = s.is_transmitting := by
  have ha : s.timer_armed = false ∨ s.is_cycle_timer_enabled = true := by
    cases hta : s.timer_armed
    · exact Or.inl rfl
    · exact Or.inr (h hta)
  have hkey : handle_replay_thread_done env READ_ERROR s =
      { file_error (stop_cyclic (stop0 s)) with progress_value := 0 } := rfl
  rw [hkey, stop0_eq, stop_cyclic_eq]
  refine ⟨rfl, ?_, rfl, rfl, rfl, rfl, rfl, rfl⟩
  rcases ha with ha | ha <;> simp [file_error, ha]

/-- Witness for `handle_read_error_amended` at the constructor state. -/
theorem handle_read_error_amended_witness :
    (handle_replay_thread_done envT READ_ERROR initState).timer_armed = false ∧
      (handle_replay_thread_done envT READ_ERROR initState).fileErrorCount =
        initState.fileErrorCount + 1 :=
  ⟨(handle_read_error_amended envT initState (by decide)).2.1,
    (handle_read_error_amended envT initState (by decide)).2.2.2.1⟩

/-- C4: when a session ends naturally (`stop(true)`) under cyclic mode:
with a zero pause field and an openable file a replacement session exists
already when the same `stop` dispatch returns (no intervening idle state, one
new session); with a non-zero pause field `stop` starts nothing and leaves
the timer arming exactly as the already-armed timer had it. -/
theorem stop_eof_cyclic (env : Env) (s : St) (hcy : s.check_cycle_enable = true) :
    (s.field_cycle_pause = 0 → env.openOk s.file_path = true →
      (stop env true s).replay_thread = true ∧
        (stop env true s).sessionsCreated = s.sessionsCreated + 1 ∧
        (stop env true s).transmitter_enabled = true) ∧
    (s.field_cycle_pause ≠ 0 →
      (stop env true s).replay_thread = false ∧
        (stop env true s).sessionsCreated = s.sessionsCreated ∧
        (stop env true s).timer_armed = s.timer_armed ∧
        (stop env true s).is_cycle_timer_enabled = s.is_cycle_timer_enabled ∧
        (stop env true s).fileErrorCount = s.fileErrorCount) := by
  constructor
  · intro hp ho
    simp [stop, stopCommon_eq, start, hcy, hp, ho]
  · intro hp
    have hp2 : (s.field_cycle_pause == 0) = false := by simpa using hp
    simp [stop, stopCommon_eq, hcy, hp2]

/-- Witness for `stop_eof_cyclic`: continuous cyclic end-of-file restarts at
once; paused cyclic end-of-file starts nothing. -/
theorem stop_eof_cyclic_witness :
    (stop envT true { initState with file_path := "/x/y.c8" }).replay_thread = true ∧
      (stop envT true
        { initState with file_path := "/x/y.c8", field_cycle_pause := 10 }).replay_thread =
        false :=
  ⟨((stop_eof_cyclic envT { initState with file_path := "/x/y.c8" } rfl).1 rfl rfl).1,
    ((stop_eof_cyclic envT
        { initState with file_path := "/x/y.c8", field_cycle_pause := 10 } rfl).2
      (by decide)).1⟩

/-- C5: `toggle()` from the idle state (no transmission flag, no session,
play bitmap) creates a session exactly when the file opens — the ghost
session counter rises by one on success and not at all on failure — and the
visible active indicator (`is_transmitting` and the stop bitmap) ends up true
iff the open succeeded, i.e. iff a session exists. -/
theorem toggle_from_idle (env : Env) (s : St)
    (h1 : s.is_transmitting = false) (h2 : s.replay_thread = false)
    (h3 : s.button_shows_stop = false) :
    (toggle env s).replay_thread = env.openOk s.file_path ∧
      (toggle env s).is_transmitting = env.openOk s.file_path ∧
      (toggle env s).button_shows_stop = env.openOk s.file_path ∧
      (toggle env s).sessionsCreated =
        s.sessionsCreated + (if env.openOk s.file_path then 1 else 0) := by
  cases hb : s.check_cycle_enable && (s.field_cycle_pause != 0) <;>
    cases hop : env.openOk s.file_path <;>
      simp [toggle, save_eq, cyclic_tx_ctr, start, file_error, is_active, h1, h2, h3, hb, hop]

/-- Witness for `toggle_from_idle`: success and failure instances. -/
theorem toggle_from_idle_witness :
    (toggle envT { initState with file_path := "/x/y.c8" }).replay_thread = true ∧
      (toggle envF { initState with file_path := "/x/y.c8" }).is_transmitting = false :=
  ⟨(toggle_from_idle envT { initState with file_path := "/x/y.c8" } rfl rfl rfl).1,
    (toggle_from_idle envF { initState with file_path := "/x/y.c8" } rfl rfl rfl).2.1⟩

theorem data_append (a b : String) : (a ++ b).data = a.data ++ b.data := by
  cases a
  cases b
  rfl

theorem splitNl_cons_append (p rest : List Char) (hp : '\n' ∉ p) :
    splitNl (p ++ '\n' :: rest) = p :: splitNl rest := by
  induction p with
  | nil => simp [splitNl]
  | cons c cs ih =>
    have hc : ¬(c = '\n') := fun e => hp (e ▸ List.mem_cons_self c cs)
    have hcs : '\n' ∉ cs := fun h => hp (List.mem_cons_of_mem _ h)
    simp [splitNl, hc, ih hcs]

theorem stripCR_concat (p : List Char) : stripCR (p ++ ['\r']) = p := by
  simp [stripCR, List.getLast?_concat, List.dropLast_concat]

/-- Splitting a record that starts with a CR-free, LF-free field terminated
by CRLF yields that field as the first line. -/
theorem splitLines_eq_cons (c p rest : String)
    (hdata : c.data = p.data ++ '\r' :: '\n' :: rest.data)
    (hn : '\n' ∉ p.data) (_hr : '\r' ∉ p.data) :
    splitLines c = p :: splitLines rest := by
  have h2 : c.data = (p.data ++ ['\r']) ++ '\n' :: rest.data := by
    rw [hdata]
    simp
  have h3 : '\n' ∉ p.data ++ ['\r'] := by
    simp [hn]
  unfold splitLines
  rw [h2, splitNl_cons_append _ _ h3]
  simp only [List.map_cons, stripCR_concat]

theorem splitLines_empty : splitLines "" = [""] := rfl

theorem skip_empty : skipLine "" = true := rfl

theorem skip_bts : ∀ b, skipLine (bts b) = false := by decide

theorem stoi_bts : ∀ b, stoi (bts b) = some (if b then 1 else 0) := by decide

theorem bts_no_nl : ∀ b, '\n' ∉ (bts b).data := by decide

theorem bts_no_cr : ∀ b, '\r' ∉ (bts b).data := by decide

theorem skip_natRepr31 : ∀ n < 31, skipLine (natRepr n) = false := by decide

theorem stoi_natRepr31 : ∀ n < 31, stoi (natRepr n) = some (Int.ofNat n) := by decide

theorem natRepr31_no_nl : ∀ n < 31, '\n' ∉ (natRepr n).data := by decide

theorem natRepr31_no_cr : ∀ n < 31, '\r' ∉ (natRepr n).data := by decide

theorem clamp_tx31 : ∀ n < 31, 1 ≤ n → clampInt 1 30 (Int.ofNat n) = Int.ofNat n := by decide

theorem clamp_pause31 : ∀ n < 31, clampInt 0 30 (Int.ofNat n) = Int.ofNat n := by decide

theorem intRepr_ofNat (n : Nat) : intRepr (Int.ofNat n) = natRepr n := by
  unfold intRepr
  simp

/-- Blank and comment lines do not shift the positional interpretation: the
reader loop computes the same result as on the record with them removed. -/
theorem loadLines_filter (env : Env) (ls : List String) (i : Nat) (u : St) :
    loadLines env ls i u = loadLines env (ls.filter (fun l => !(skipLine l))) i u := by
  induction ls generalizing i u with
  | nil => rfl
  | cons l rest ih =>
    cases hl : skipLine l
    · simp only [loadLines, hl, List.filter, Bool.not_false, if_false, Bool.false_eq_true]
      cases loadLine env i l u with
      | error e => rfl
      | ok s1 => exact ih (i + 1) s1
    · simp [loadLines, List.filter, hl, ih]

theorem on_file_changed_fields (env : Env) (p : String) (t : St) :
    (on_file_changed env p t).file_path = p ∧
      (on_file_changed env p t).check_cycle_enable = t.check_cycle_enable ∧
      (on_file_changed env p t).field_cycle_tx = t.field_cycle_tx ∧
      (on_file_changed env p t).field_cycle_pause = t.field_cycle_pause := by
  cases h : env.openOk p <;> simp [on_file_changed, file_error, h]

/-- C8: evaluation of the code at the failing input.  A persisted record with
the malformed numeric text "abc" in the cycle-enabled field makes
`load_last_config` hit `std::stoi` with no digits to convert: the conversion
fails (`std::invalid_argument`, uncaught in the source, modelled as the
`invalidNumber` abort) and no in-program error report or recovery path runs
— there is no reportable `ConfigParseError` path, contradicting the claim. -/
theorem load_malformed_number_aborts :
    load_last_config envT
        { initState with cfg := some "/x/y.c8\r\nabc\r\n5\r\n10\r\n" } =
      Except.error LoadErr.invalidNumber := by
  rfl

/-- C6: config round-trip.  Saving the four fields (a path free of line
breaks, not blank and not starting with the comment marker; the cycle flag;
in-range on/off durations) and loading the produced record into any state
reproduces the identical four values; and (second conjunct) interspersed
blank or comment lines are skipped without shifting the positional
interpretation of the remaining fields. -/
theorem config_roundtrip (env : Env) (s t : St) (p : String) (en : Bool) (tx pause : Nat)
    (hfp : s.file_path = p) (hen : s.check_cycle_enable = en)
    (htx : s.field_cycle_tx = Int.ofNat tx) (hpz : s.field_cycle_pause = Int.ofNat pause)
    (hne : p.data ≠ []) (hhash : p.data.head? ≠ some '#')
    (hnl : '\n' ∉ p.data) (hcr : '\r' ∉ p.data)
    (htx1 : 1 ≤ tx) (htx2 : tx < 31) (hpa : pause < 31)
    (hw : env.cfgOpenOk = true)
    (ht : t.cfg = (save_last_config env s).cfg) :
    (∃ t2 : St, load_last_config env t = .ok t2 ∧ t2.file_path = p ∧
      t2.check_cycle_enable = en ∧ t2.field_cycle_tx = Int.ofNat tx ∧
      t2.field_cycle_pause = Int.ofNat pause) ∧
    (∀ (ls : List String) (i : Nat) (u : St),
      loadLines env ls i u = loadLines env (ls.filter (fun l => !(skipLine l))) i u) := by
  refine ⟨?_, fun ls i u => loadLines_filter env ls i u⟩
  have ht2 : t.cfg = some (configContent s) := by
    rw [save_eq] at ht
    simpa [hw] using ht
  have hcontent : configContent s =
      p ++ "\r\n" ++ (bts en ++ "\r\n" ++ (natRepr tx ++ "\r\n" ++ (natRepr pause ++ "\r\n" ++ ""))) := by
    unfold configContent
    rw [hfp, hen, htx, hpz, intRepr_ofNat, intRepr_ofNat]
    apply String.ext
    simp [data_append]
  have e1 : splitLines (configContent s) =
      p :: splitLines (bts en ++ "\r\n" ++ (natRepr tx ++ "\r\n" ++ (natRepr pause ++ "\r\n" ++ ""))) := by
    apply splitLines_eq_cons _ _ _ _ hnl hcr
    rw [hcontent]
    simp [data_append]
  have e2 : splitLines (bts en ++ "\r\n" ++ (natRepr tx ++ "\r\n" ++ (natRepr pause ++ "\r\n" ++ ""))) =
      bts en :: splitLines (natRepr tx ++ "\r\n" ++ (natRepr pause ++ "\r\n" ++ "")) := by
    apply splitLines_eq_cons _ _ _ _ (bts_no_nl en) (bts_no_cr en)
    simp [data_append]
  have e3 : splitLines (natRepr tx ++ "\r\n" ++ (natRepr pause ++ "\r\n" ++ "")) =
      natRepr tx :: splitLines (natRepr pause ++ "\r\n" ++ "") := by
    apply splitLines_eq_cons _ _ _ _ (natRepr31_no_nl tx htx2) (natRepr31_no_cr tx htx2)
    simp [data_append]
  have e4 : splitLines (natRepr pause ++ "\r\n" ++ "") = natRepr pause :: splitLines "" := by
    apply splitLines_eq_cons _ _ _ _ (natRepr31_no_nl pause hpa) (natRepr31_no_cr pause hpa)
    simp [data_append]
  have hsplit : splitLines (configContent s) =
      [p, bts en, natRepr tx, natRepr pause, ""] := by
    rw [e1, e2, e3, e4, splitLines_empty]
  have hsp : skipLine p = false := by
    unfold skipLine
    cases hd : p.data with
    | nil => exact absurd hd hne
    | cons c cs =>
      have h1 : ¬(c = '#') := fun e => hhash (by rw [hd, e]; rfl)
      have h2 : ¬(c = '\r') := fun e => hcr (by rw [hd, e]; exact List.mem_cons_self _ _)
      have h3 : ¬(c = '\n') := fun e => hnl (by rw [hd, e]; exact List.mem_cons_self _ _)
      simp [h1, h2, h3]
  have hload : load_last_config env t =
      .ok { on_file_changed env p t with
              check_cycle_enable := ((if en then (1 : Int) else 0) != 0)
              field_cycle_tx := Int.ofNat tx
              field_cycle_pause := Int.ofNat pause } := by
    simp only [load_last_config, ht2, hsplit]
    simp only [loadLines, hsp, skip_bts, skip_natRepr31 tx htx2, skip_natRepr31 pause hpa,
      skip_empty, loadLine, stoi_bts, stoi_natRepr31 tx htx2, stoi_natRepr31 pause hpa,
      clamp_tx31 tx htx2 htx1, clamp_pause31 pause hpa, if_false, if_true,
      Bool.false_eq_true, ite_false, ite_true]
  obtain ⟨ha, hb, hcx, hdx⟩ := on_file_changed_fields env p t
  refine ⟨_, hload, ?_, ?_, rfl, rfl⟩
  · simpa using ha
  · cases en <;> rfl

/-- Witness for `config_roundtrip` at the concrete quadruple of the spec. -/
theorem config_roundtrip_witness :
    (∃ t2 : St,
      load_last_config envT
          { initState with
            cfg := (save_last_config envT
              { initState with
                file_path := "/x/y.c8", field_cycle_tx := 5, field_cycle_pause := 10 }).cfg } =
        .ok t2 ∧
      t2.file_path = "/x/y.c8" ∧ t2.check_cycle_enable = true ∧
      t2.field_cycle_tx = Int.ofNat 5 ∧ t2.field_cycle_pause = Int.ofNat 10) :=
  (config_roundtrip envT
    { initState with file_path := "/x/y.c8", field_cycle_tx := 5, field_cycle_pause := 10 }
    { initState with
      cfg := (save_last_config envT
        { initState with
          file_path := "/x/y.c8", field_cycle_tx := 5, field_cycle_pause := 10 }).cfg }
    "/x/y.c8" true 5 10 rfl rfl rfl rfl (by decide) (by decide) (by decide) (by decide)
    (by decide) (by decide) (by decide) rfl rfl).1

end SigGen
